import Mathlib

/-!
Verification of the gRPC client service bridge
(`lib/grpc/clientservice/service.go` of centrifugo): a duplex-stream session
bridge with a bounded reply queue, a non-blocking send, a mutex-guarded
idempotent close that attaches trailer metadata, and a session handler
(`Communicate`) running an inbound goroutine plus an outbound drain loop.

The Go code is shallowly embedded: the buffered `replies` channel becomes a
list of buffered items plus a closed flag; `json.Marshal` becomes an explicit
fallible encoding parameter; the two concurrent loops become a small-step
function driven by an explicit interleaving schedule, with the mutex in
`grpcTransport` modelled by taking calls in their serialization order.
-/

namespace ClientService

/-- Disconnect signal: machine-readable reason plus the reconnect-allowed
hint.  The field names follow the composite literal
`&proto.Disconnect{Reason: ..., Reconnect: ...}` used in the source. -/
structure Disconnect where
  reason : String
  reconnect : Bool
deriving DecidableEq, Repr

/-- Modelled from the spec: `proto.DisconnectNormal`, the standard
"normal" disconnect value used on end-of-stream and read errors; its
definition lives outside the given source file. -/
def DisconnectNormal : Disconnect :=
  { reason := "normal", reconnect := true }

/-- Capacity of the reply buffer channel (`const replyBufferSize = 64`). -/
def replyBufferSize : Nat := 64

/-- State of a `grpcTransport` together with the effects it owns: the
`closed` flag (mutex-guarded in Go), the trailer metadata attached to the
stream via `SetTrailer` (the value stored under the key `"disconnect"`),
and the buffered `replies` channel of element type `R`, embedded as its
buffered contents `buf` in FIFO order plus whether `close(t.replies)` has
run (`chClosed`). -/
structure TransportState (R : Type) where
  closed : Bool
  trailer : Option String
  buf : List R
  chClosed : Bool
deriving DecidableEq, Repr

/-- A fresh transport over a fresh reply channel, as built by
`newGRPCTransport` inside `Communicate`. -/
def newGRPCTransport (R : Type) : TransportState R :=
  { closed := false, trailer := none, buf := [], chClosed := false }

/-- Outcome of the `select` statement in `grpcTransport.Send`: the reply is
enqueued (`ok`); the `default` branch fires and the buffer-full error is
returned (`overflow`); or the channel is already closed, in which case the
send case is always ready and the Go runtime faults (run-time panic: send on
closed channel) instead of returning (`fault`). -/
inductive SendOutcome where
  | ok
  | overflow
  | fault
deriving DecidableEq, Repr

/-- `grpcTransport.Send`: non-blocking send of `reply.Reply` into the
buffered `replies` channel via `select`/`default`.  A send on a closed
channel is always ready and faults; if the buffer has free space the reply is
appended; otherwise the `default` branch reports the buffer-full error and
the state is unchanged. -/
def grpcTransport.Send {R : Type} (t : TransportState R) (r : R) :
    TransportState R × SendOutcome :=
  if t.chClosed then
    (t, SendOutcome.fault)
  else if t.buf.length < replyBufferSize then
    ({ t with buf := t.buf ++ [r] }, SendOutcome.ok)
  else
    (t, SendOutcome.overflow)

/-- `grpcTransport.Close`: under the mutex, return `nil` if already closed;
otherwise set `closed`, JSON-marshal the disconnect (the external
`json.Marshal` is the `encode` parameter), return its error on failure, else
attach the trailer via `SetTrailer` and `close(t.replies)`.  The result is
the new transport state paired with the returned error value. -/
def grpcTransport.Close {R : Type} (encode : Disconnect → Except String String)
    (t : TransportState R) (d : Disconnect) :
    TransportState R × Except String Unit :=
  if t.closed then
    (t, Except.ok ())
  else
    match encode d with
    | Except.error e => ({ t with closed := true }, Except.error e)
    | Except.ok s =>
        ({ t with closed := true, trailer := some s, chClosed := true },
         Except.ok ())

/-- A serialization (mutex acquisition order) of several `grpcTransport.Close`
calls: the final transport state and the list of returned results, in call
order. -/
def closeMany {R : Type} (encode : Disconnect → Except String String)
    (t : TransportState R) :
    List Disconnect → TransportState R × List (Except String Unit)
  | [] => (t, [])
  | d :: ds =>
      let p := grpcTransport.Close encode t d
      let q := closeMany encode p.1 ds
      (q.1, p.2 :: q.2)

/-- A concrete always-succeeding JSON encoding of a disconnect value,
matching the shape `json.Marshal` produces for the disconnect struct; used to
instantiate the `encode` parameter in witnesses. -/
def encodeDisconnectJSON (d : Disconnect) : Except String String :=
  Except.ok ("\x7b\"reason\":\"" ++ d.reason ++ "\",\"reconnect\":" ++
    (if d.reconnect then "true" else "false") ++ "\x7d")

/-- A concrete always-failing encoding, modelling a `json.Marshal` error;
used to exercise the serialization-failure paths. -/
def encodeFailing (_ : Disconnect) : Except String String :=
  Except.error "json: unsupported value"

/-- Closing a transport whose `closed` flag is already set is a no-op that
returns success, for any whole sequence of further calls. -/
theorem closeMany_of_closed {R : Type}
    (encode : Disconnect → Except String String) (t : TransportState R)
    (hc : t.closed = true) :
    ∀ ds : List Disconnect,
      closeMany encode t ds = (t, ds.map fun _ => Except.ok ()) := by
  intro ds
  induction ds with
  | nil => rfl
  | cons d ds ih =>
      simp [closeMany, grpcTransport.Close, hc, ih]

/-- C2: the terminate operation is idempotent.  On a not-yet-closed
transport, when serialization of the first disconnect payload succeeds, the
first `Close` attaches the serialized payload as the trailer, closes the
reply channel and returns success; any subsequent call, with any encoder and
any disconnect payload whatsoever, is a no-op returning the same success
result, so the trailer carries the first call's payload only. -/
theorem terminate_idempotent_first_wins {R : Type}
    (encode encode2 : Disconnect → Except String String)
    (t : TransportState R) (d d2 : Disconnect) (s : String)
    (hopen : t.closed = false) (henc : encode d = Except.ok s) :
    (grpcTransport.Close encode t d).2 = Except.ok () ∧
    (grpcTransport.Close encode t d).1.trailer = some s ∧
    (grpcTransport.Close encode t d).1.chClosed = true ∧
    grpcTransport.Close encode2 (grpcTransport.Close encode t d).1 d2 =
      ((grpcTransport.Close encode t d).1, Except.ok ()) := by
  simp [grpcTransport.Close, hopen, henc]

/-- Witness for C2 at a fresh transport, first payload the normal
disconnect, second payload a different one. -/
theorem terminate_idempotent_first_wins_witness :
    (newGRPCTransport Nat).closed = false ∧
    encodeDisconnectJSON DisconnectNormal =
      Except.ok "\x7b\"reason\":\"normal\",\"reconnect\":true\x7d" ∧
    ((grpcTransport.Close encodeDisconnectJSON (newGRPCTransport Nat)
        DisconnectNormal).2 = Except.ok () ∧
      (grpcTransport.Close encodeDisconnectJSON (newGRPCTransport Nat)
        DisconnectNormal).1.trailer =
          some "\x7b\"reason\":\"normal\",\"reconnect\":true\x7d" ∧
      (grpcTransport.Close encodeDisconnectJSON (newGRPCTransport Nat)
        DisconnectNormal).1.chClosed = true ∧
      grpcTransport.Close encodeFailing
          (grpcTransport.Close encodeDisconnectJSON (newGRPCTransport Nat)
            DisconnectNormal).1 { reason := "other", reconnect := false } =
        ((grpcTransport.Close encodeDisconnectJSON (newGRPCTransport Nat)
            DisconnectNormal).1, Except.ok ())) :=
  ⟨rfl, rfl,
   terminate_idempotent_first_wins encodeDisconnectJSON encodeFailing
     (newGRPCTransport Nat) DisconnectNormal
     { reason := "other", reconnect := false } _ rfl rfl⟩

/-- C3 counterexample: a reply queue holding fewer than its capacity of
un-consumed items (here zero) on which `Send` neither appends the reply nor
returns success — the queue has been closed, and the send faults instead. -/
theorem send_below_capacity_not_ok_cex :
    (grpcTransport.Send
        ({ closed := true, trailer := some "d", buf := [],
           chClosed := true } : TransportState Nat) 5).2 = SendOutcome.fault ∧
    (grpcTransport.Send
        ({ closed := true, trailer := some "d", buf := [],
           chClosed := true } : TransportState Nat) 5).2 ≠ SendOutcome.ok ∧
    (grpcTransport.Send
        ({ closed := true, trailer := some "d", buf := [],
           chClosed := true } : TransportState Nat) 5).1.buf = [] := by
  decide

/-- C3 (amended): `Send` never blocks.  On a queue that has not been closed:
with fewer than 64 un-consumed items it appends the reply and returns
success, and with exactly 64 it fails immediately with the overflow error,
leaving the queue contents unchanged.  On a closed queue it faults (Go
run-time panic) instead of appending or returning success. -/
theorem send_nonblocking {R : Type} (t : TransportState R) (r : R) :
    (t.chClosed = false → t.buf.length < replyBufferSize →
      grpcTransport.Send t r =
        ({ t with buf := t.buf ++ [r] }, SendOutcome.ok)) ∧
    (t.chClosed = false → t.buf.length = replyBufferSize →
      grpcTransport.Send t r = (t, SendOutcome.overflow)) ∧
    (t.chClosed = true →
      grpcTransport.Send t r = (t, SendOutcome.fault)) := by
  refine ⟨fun hc hlt => ?_, fun hc hlen => ?_, fun hc => ?_⟩
  · simp [grpcTransport.Send, hc, hlt]
  · simp [grpcTransport.Send, hc, hlen]
  · simp [grpcTransport.Send, hc]

/-- Witness for C3 (amended): a two-element open queue accepts a send, a
64-element open queue overflows unchanged, a closed queue faults. -/
theorem send_nonblocking_witness :
    grpcTransport.Send
        ({ closed := false, trailer := none, buf := [1, 2],
           chClosed := false } : TransportState Nat) 9 =
      ({ closed := false, trailer := none, buf := [1, 2, 9],
         chClosed := false }, SendOutcome.ok) ∧
    grpcTransport.Send
        ({ closed := false, trailer := none, buf := List.replicate 64 0,
           chClosed := false } : TransportState Nat) 9 =
      ({ closed := false, trailer := none, buf := List.replicate 64 0,
         chClosed := false }, SendOutcome.overflow) ∧
    grpcTransport.Send
        ({ closed := true, trailer := some "d", buf := [],
           chClosed := true } : TransportState Nat) 9 =
      ({ closed := true, trailer := some "d", buf := [],
         chClosed := true }, SendOutcome.fault) :=
  ⟨(send_nonblocking _ 9).1 rfl (by decide),
   (send_nonblocking _ 9).2.1 rfl (by decide),
   (send_nonblocking _ 9).2.2 rfl⟩

/-- C4 counterexample: two serialized `Close` calls on a fresh transport with
a failing encoder.  The claim says all calls return the same serialization
error and that exactly one trailer attachment and one queue closure occur;
in fact only the first call returns the error (the second returns success),
no trailer is attached, and the queue is never closed. -/
theorem terminate_concurrent_error_cex :
    (closeMany encodeFailing (newGRPCTransport Nat)
        [DisconnectNormal, DisconnectNormal]).2 =
      [Except.error "json: unsupported value", Except.ok ()] ∧
    (closeMany encodeFailing (newGRPCTransport Nat)
        [DisconnectNormal, DisconnectNormal]).1.trailer = none ∧
    (closeMany encodeFailing (newGRPCTransport Nat)
        [DisconnectNormal, DisconnectNormal]).1.chClosed = false := by
  refine ⟨rfl, rfl, rfl⟩

/-- C4 (amended): for any serialization of `C ≥ 1` terminate calls on a fresh
transport, the first (winning) call decides everything.  If encoding its
payload succeeds, exactly that payload is attached as the trailer, the queue
is closed, and every call returns success.  If encoding fails, the first
call returns the serialization error while every subsequent call returns
success, and no trailer is attached and the queue is not closed. -/
theorem terminate_concurrent {R : Type}
    (encode : Disconnect → Except String String)
    (d : Disconnect) (ds : List Disconnect) :
    (∀ s, encode d = Except.ok s →
      (closeMany encode (newGRPCTransport R) (d :: ds)).1.trailer = some s ∧
      (closeMany encode (newGRPCTransport R) (d :: ds)).1.chClosed = true ∧
      (closeMany encode (newGRPCTransport R) (d :: ds)).2 =
        Except.ok () :: ds.map (fun _ => Except.ok ())) ∧
    (∀ e, encode d = Except.error e →
      (closeMany encode (newGRPCTransport R) (d :: ds)).1.trailer = none ∧
      (closeMany encode (newGRPCTransport R) (d :: ds)).1.chClosed = false ∧
      (closeMany encode (newGRPCTransport R) (d :: ds)).2 =
        Except.error e :: ds.map (fun _ => Except.ok ())) := by
  constructor
  · intro s henc
    have h1 : grpcTransport.Close encode (newGRPCTransport R) d =
        ({ closed := true, trailer := some s, buf := [], chClosed := true },
         Except.ok ()) := by
      simp [grpcTransport.Close, newGRPCTransport, henc]
    have h2 := closeMany_of_closed encode
      ({ closed := true, trailer := some s, buf := [],
         chClosed := true } : TransportState R) rfl ds
    simp [closeMany, h1, h2]
  · intro e henc
    have h1 : grpcTransport.Close encode (newGRPCTransport R) d =
        ({ closed := true, trailer := none, buf := [], chClosed := false },
         Except.error e) := by
      simp [grpcTransport.Close, newGRPCTransport, henc]
    have h2 := closeMany_of_closed encode
      ({ closed := true, trailer := none, buf := [],
         chClosed := false } : TransportState R) rfl ds
    simp [closeMany, h1, h2]

/-- Witness for C4 (amended), exercising both the successful-encoding branch
(two calls, both return success, trailer set once) and the failing-encoding
branch (first call errors, second succeeds, no trailer, queue open). -/
theorem terminate_concurrent_witness :
    (encodeDisconnectJSON DisconnectNormal =
      Except.ok "\x7b\"reason\":\"normal\",\"reconnect\":true\x7d" ∧
     (closeMany encodeDisconnectJSON (newGRPCTransport Nat)
        [DisconnectNormal, { reason := "other", reconnect := false }]).1.trailer =
          some "\x7b\"reason\":\"normal\",\"reconnect\":true\x7d" ∧
     (closeMany encodeDisconnectJSON (newGRPCTransport Nat)
        [DisconnectNormal, { reason := "other", reconnect := false }]).1.chClosed =
          true ∧
     (closeMany encodeDisconnectJSON (newGRPCTransport Nat)
        [DisconnectNormal, { reason := "other", reconnect := false }]).2 =
          [Except.ok (), Except.ok ()]) ∧
    (encodeFailing DisconnectNormal =
      Except.error "json: unsupported value" ∧
     (closeMany encodeFailing (newGRPCTransport Nat)
        [DisconnectNormal, DisconnectNormal]).1.trailer = none ∧
     (closeMany encodeFailing (newGRPCTransport Nat)
        [DisconnectNormal, DisconnectNormal]).1.chClosed = false ∧
     (closeMany encodeFailing (newGRPCTransport Nat)
        [DisconnectNormal, DisconnectNormal]).2 =
          [Except.error "json: unsupported value", Except.ok ()]) :=
  ⟨⟨rfl,
    (terminate_concurrent encodeDisconnectJSON DisconnectNormal
      [{ reason := "other", reconnect := false }]).1 _ rfl⟩,
   ⟨rfl,
    (terminate_concurrent encodeFailing DisconnectNormal
      [DisconnectNormal]).2 _ rfl⟩⟩

/-- C9 counterexample: after the reply queue is closed, `Send` does not
return an error — it faults (Go run-time panic: send on closed channel), so
calling `Send` after closure is not safe in the claimed sense. -/
theorem send_after_close_not_safe_cex :
    (grpcTransport.Send
        ({ closed := true, trailer := some "d", buf := [1],
           chClosed := true } : TransportState Nat) 7).2 = SendOutcome.fault ∧
    (grpcTransport.Send
        ({ closed := true, trailer := some "d", buf := [1],
           chClosed := true } : TransportState Nat) 7).2 ≠
      SendOutcome.overflow := by
  decide

/-- C9 (amended): once the reply queue has been closed no `Send` enqueues a
reply — but the call faults (panics) rather than returning an error — and
closing occurs at most once: every `Close` leaves the `closed` flag set, and
a `Close` on a transport whose flag is set is a pure no-op returning success,
so the channel-close action can be performed by at most one call. -/
theorem closed_queue_no_enqueue {R : Type} (t : TransportState R) (r : R)
    (encode : Disconnect → Except String String) (d : Disconnect) :
    (t.chClosed = true → grpcTransport.Send t r = (t, SendOutcome.fault)) ∧
    (t.closed = true →
      grpcTransport.Close encode t d = (t, Except.ok ())) ∧
    (grpcTransport.Close encode t d).1.closed = true := by
  refine ⟨fun hc => ?_, fun hc => ?_, ?_⟩
  · simp [grpcTransport.Send, hc]
  · simp [grpcTransport.Close, hc]
  · by_cases hc : t.closed
    · simp [grpcTransport.Close, hc]
    · simp only [grpcTransport.Close, hc]
      simp only [Bool.false_eq_true, if_false]
      cases encode d <;> simp

/-- Witness for C9 (amended) on a concrete closed transport. -/
theorem closed_queue_no_enqueue_witness :
    grpcTransport.Send
        ({ closed := true, trailer := some "d", buf := [3],
           chClosed := true } : TransportState Nat) 8 =
      ({ closed := true, trailer := some "d", buf := [3],
         chClosed := true }, SendOutcome.fault) ∧
    grpcTransport.Close encodeDisconnectJSON
        ({ closed := true, trailer := some "d", buf := [3],
           chClosed := true } : TransportState Nat) DisconnectNormal =
      ({ closed := true, trailer := some "d", buf := [3],
         chClosed := true }, Except.ok ()) ∧
    (grpcTransport.Close encodeDisconnectJSON
        ({ closed := true, trailer := some "d", buf := [3],
           chClosed := true } : TransportState Nat) DisconnectNormal).1.closed =
      true :=
  ⟨(closed_queue_no_enqueue _ 8 encodeDisconnectJSON DisconnectNormal).1 rfl,
   (closed_queue_no_enqueue _ 8 encodeDisconnectJSON DisconnectNormal).2.1 rfl,
   (closed_queue_no_enqueue _ 8 encodeDisconnectJSON DisconnectNormal).2.2⟩

/-- C10: if the first `Close` on a not-yet-closed transport hits a
serialization failure, the error is returned, the `closed` flag is set but
nothing else changes (no trailer attached, replies channel not closed), and
every subsequent sequence of `Close` calls returns success without changing
the state — so the reply channel is never closed by termination. -/
theorem close_serialization_failure {R : Type}
    (encode encode2 : Disconnect → Except String String)
    (t : TransportState R) (d : Disconnect) (e : String)
    (ds : List Disconnect)
    (hopen : t.closed = false) (henc : encode d = Except.error e) :
    (grpcTransport.Close encode t d).2 = Except.error e ∧
    (grpcTransport.Close encode t d).1 = { t with closed := true } ∧
    closeMany encode2 (grpcTransport.Close encode t d).1 ds =
      ((grpcTransport.Close encode t d).1, ds.map fun _ => Except.ok ()) := by
  have h1 : grpcTransport.Close encode t d =
      ({ t with closed := true }, Except.error e) := by
    simp [grpcTransport.Close, hopen, henc]
  refine ⟨by simp [h1], by simp [h1], ?_⟩
  rw [h1]
  exact closeMany_of_closed encode2 _ rfl ds

/-- Witness for C10: a fresh transport, a failing encoder, one subsequent
`Close` call with a succeeding encoder; the channel stays open throughout. -/
theorem close_serialization_failure_witness :
    (newGRPCTransport Nat).closed = false ∧
    encodeFailing DisconnectNormal = Except.error "json: unsupported value" ∧
    (grpcTransport.Close encodeFailing (newGRPCTransport Nat)
        DisconnectNormal).2 = Except.error "json: unsupported value" ∧
    (grpcTransport.Close encodeFailing (newGRPCTransport Nat)
        DisconnectNormal).1 = { newGRPCTransport Nat with closed := true } ∧
    closeMany encodeDisconnectJSON
        (grpcTransport.Close encodeFailing (newGRPCTransport Nat)
          DisconnectNormal).1 [DisconnectNormal] =
      ((grpcTransport.Close encodeFailing (newGRPCTransport Nat)
          DisconnectNormal).1, [Except.ok ()]) :=
  ⟨rfl, rfl,
   (close_serialization_failure encodeFailing encodeDisconnectJSON
     (newGRPCTransport Nat) DisconnectNormal _ [DisconnectNormal] rfl rfl).1,
   (close_serialization_failure encodeFailing encodeDisconnectJSON
     (newGRPCTransport Nat) DisconnectNormal _ [DisconnectNormal] rfl rfl).2.1,
   (close_serialization_failure encodeFailing encodeDisconnectJSON
     (newGRPCTransport Nat) DisconnectNormal _ [DisconnectNormal] rfl rfl).2.2⟩

/-- Result of one `c.Handle(cmd)` call by the session engine: an optional
reply `rep` and an optional `disconnect` instruction.  The inbound loop
checks the disconnect first, then the reply, matching the source order. -/
structure HandleOutcome (R : Type) where
  rep : Option R
  disconnect : Option Disconnect
deriving DecidableEq, Repr

/-- One outcome of the blocking `stream.Recv()` in the inbound goroutine:
end of stream (`io.EOF`), some other read error, or a successfully read
command whose `c.Handle` outcome is `h`. -/
inductive ReadEvent (R : Type) where
  | eof
  | readErr
  | cmd (h : HandleOutcome R)
deriving DecidableEq, Repr

/-- Whole-session state for one `Communicate` call.  `events` is the
remaining sequence of `stream.Recv` outcomes the inbound goroutine will
observe; `pendingWrites` the remaining outcomes of `stream.Send` calls made
by the outbound loop; `transport` the shared `grpcTransport`.
`inboundDone` records that the goroutine has returned and `panicked` that it
has faulted (send on closed channel), which in Go crashes the process.
`engineClosed` (modelled from the spec: the session engine's `Close` is
idempotent), `engineCalls` (every invocation of the engine's `Close`, in
order) and `engineEffective` (how many invocations took effect) describe the
session engine handle.  `accepted` lists the replies `Send` enqueued
successfully, `writes` the replies written to the stream, `outs` the
consumed `stream.Send` outcomes, and `ret` the value returned by
`Communicate` (`none` while it is still running, `some none` for a `nil`
return, `some (some e)` for an error return). -/
structure SessionState (R : Type) where
  events : List (ReadEvent R)
  pendingWrites : List (Except String Unit)
  transport : TransportState R
  inboundDone : Bool
  panicked : Bool
  engineClosed : Bool
  engineCalls : List Disconnect
  engineEffective : Nat
  accepted : List R
  writes : List R
  outs : List (Except String Unit)
  ret : Option (Option String)

/-- Modelled from the spec: `c.Close(disconnect)` of the session engine
(`lib/client`, outside the given source) is idempotent and tears the session
down through the transport's terminate operation — its first effective call
invokes `grpcTransport.Close` with the given disconnect, later calls are
no-ops.  Every invocation is recorded in `engineCalls`; effective ones are
counted by `engineEffective`. -/
def engineClose {R : Type} (encode : Disconnect → Except String String)
    (d : Disconnect) (s : SessionState R) : SessionState R :=
  if s.engineClosed then
    { s with engineCalls := s.engineCalls ++ [d] }
  else
    { s with
        engineCalls := s.engineCalls ++ [d]
        engineClosed := true
        engineEffective := s.engineEffective + 1
        transport := (grpcTransport.Close encode s.transport d).1 }

/-- One iteration of the inbound goroutine of `Communicate`: blocking-read a
command; on `io.EOF` or any other read error close the engine with the
normal disconnect and return; on a disconnect instruction from `c.Handle`
close the engine with it and return; on a produced reply call
`transport.Send`, closing the engine with the reconnectable
"error sending message" disconnect and returning if it errors.  A send on
an already-closed channel faults the goroutine (and hence the process).
The goroutine keeps running after `Communicate` returns; it stops only by
returning or faulting. -/
def inboundStep {R : Type} (encode : Disconnect → Except String String)
    (s : SessionState R) : SessionState R :=
  if s.panicked || s.inboundDone then s
  else
    match s.events with
    | [] => s
    | ReadEvent.eof :: rest =>
        engineClose encode DisconnectNormal
          { s with events := rest, inboundDone := true }
    | ReadEvent.readErr :: rest =>
        engineClose encode DisconnectNormal
          { s with events := rest, inboundDone := true }
    | ReadEvent.cmd h :: rest =>
        match h.disconnect with
        | some d =>
            engineClose encode d { s with events := rest, inboundDone := true }
        | none =>
            match h.rep with
            | none => { s with events := rest }
            | some r =>
                match (grpcTransport.Send s.transport r).2 with
                | SendOutcome.ok =>
                    { s with events := rest,
                             transport := (grpcTransport.Send s.transport r).1,
                             accepted := s.accepted ++ [r] }
                | SendOutcome.overflow =>
                    engineClose encode
                      { reason := "error sending message", reconnect := true }
                      { s with events := rest, inboundDone := true }
                | SendOutcome.fault =>
                    { s with events := rest, panicked := true }

/-- One iteration of the outbound loop `for reply := range replies` of
`Communicate`: receive the next buffered reply and call `stream.Send` on it,
returning the write error if it fails; when the channel is drained and
closed, exit the loop and return `nil`.  Returning fires the deferred
`c.Close(proto.DisconnectNormal)`.  With a non-empty buffer but no write
outcome available, or an open empty channel, the loop is blocked and the
step does nothing. -/
def outboundStep {R : Type} (encode : Disconnect → Except String String)
    (s : SessionState R) : SessionState R :=
  if s.panicked || s.ret.isSome then s
  else
    match s.transport.buf with
    | r :: rest =>
        match s.pendingWrites with
        | [] => s
        | w :: pw =>
            match w with
            | Except.ok _ =>
                { s with transport := { s.transport with buf := rest },
                         pendingWrites := pw, outs := s.outs ++ [w],
                         writes := s.writes ++ [r] }
            | Except.error e =>
                engineClose encode DisconnectNormal
                  { s with transport := { s.transport with buf := rest },
                           pendingWrites := pw, outs := s.outs ++ [w],
                           ret := some (some e) }
    | [] =>
        if s.transport.chClosed then
          engineClose encode DisconnectNormal { s with ret := some none }
        else s

/-- Which of the two concurrent loops runs one iteration next. -/
inductive Step where
  | inbound
  | outbound
deriving DecidableEq, Repr

/-- One scheduled step of the interleaved execution of `Communicate`. -/
def sessionStep {R : Type} (encode : Disconnect → Except String String)
    (s : SessionState R) : Step → SessionState R
  | Step.inbound => inboundStep encode s
  | Step.outbound => outboundStep encode s

/-- Initial state of one `Communicate` call: a fresh reply channel and
transport, the engine handle open, nothing read, sent or written yet. -/
def initSession {R : Type} (events : List (ReadEvent R))
    (pendingWrites : List (Except String Unit)) : SessionState R :=
  { events := events, pendingWrites := pendingWrites,
    transport := newGRPCTransport R, inboundDone := false, panicked := false,
    engineClosed := false, engineCalls := [], engineEffective := 0,
    accepted := [], writes := [], outs := [], ret := none }

/-- Run one `Communicate` session under a given interleaving schedule. -/
def runSession {R : Type} (encode : Disconnect → Except String String)
    (events : List (ReadEvent R))
    (pendingWrites : List (Except String Unit)) (sched : List Step) :
    SessionState R :=
  sched.foldl (sessionStep encode) (initSession events pendingWrites)

/-- Closing the transport never touches the buffered replies. -/
theorem close_keeps_buf {R : Type} (encode : Disconnect → Except String String)
    (t : TransportState R) (d : Disconnect) :
    (grpcTransport.Close encode t d).1.buf = t.buf := by
  unfold grpcTransport.Close
  by_cases hc : t.closed
  · simp [hc]
  · simp only [hc, Bool.false_eq_true, if_false]
    cases h : encode d <;> simp

/-- Closing the transport never re-opens the reply channel. -/
theorem close_chClosed_mono {R : Type}
    (encode : Disconnect → Except String String)
    (t : TransportState R) (d : Disconnect) (h : t.chClosed = true) :
    (grpcTransport.Close encode t d).1.chClosed = true := by
  unfold grpcTransport.Close
  by_cases hc : t.closed
  · simpa [hc]
  · simp only [hc, Bool.false_eq_true, if_false]
    cases he : encode d <;> simp [h]

/-- A successful `Send` happened on an open channel and appended the reply. -/
theorem send_ok_char {R : Type} (t : TransportState R) (r : R)
    (h : (grpcTransport.Send t r).2 = SendOutcome.ok) :
    t.chClosed = false ∧
    (grpcTransport.Send t r).1 = { t with buf := t.buf ++ [r] } := by
  unfold grpcTransport.Send at h ⊢
  by_cases hc : t.chClosed
  · simp [hc] at h
  · by_cases hl : t.buf.length < replyBufferSize
    · simp [hc, hl]
    · simp [hc, hl] at h

theorem engineClose_calls {R : Type}
    (encode : Disconnect → Except String String) (d : Disconnect)
    (s : SessionState R) :
    (engineClose encode d s).engineCalls = s.engineCalls ++ [d] := by
  by_cases hc : s.engineClosed <;> simp [engineClose, hc]

theorem engineClose_closed {R : Type}
    (encode : Disconnect → Except String String) (d : Disconnect)
    (s : SessionState R) :
    (engineClose encode d s).engineClosed = true := by
  by_cases hc : s.engineClosed <;> simp [engineClose, hc]

theorem engineClose_effective {R : Type}
    (encode : Disconnect → Except String String) (d : Disconnect)
    (s : SessionState R)
    (h : s.engineEffective = if s.engineClosed then 1 else 0) :
    (engineClose encode d s).engineEffective = 1 := by
  by_cases hc : s.engineClosed
  · simp [hc] at h
    simpa [engineClose, hc] using h
  · simp [hc] at h
    simp [engineClose, hc, h]

theorem engineClose_ret {R : Type}
    (encode : Disconnect → Except String String) (d : Disconnect)
    (s : SessionState R) :
    (engineClose encode d s).ret = s.ret := by
  by_cases hc : s.engineClosed <;> simp [engineClose, hc]

theorem engineClose_outs {R : Type}
    (encode : Disconnect → Except String String) (d : Disconnect)
    (s : SessionState R) :
    (engineClose encode d s).outs = s.outs := by
  by_cases hc : s.engineClosed <;> simp [engineClose, hc]

theorem engineClose_writes {R : Type}
    (encode : Disconnect → Except String String) (d : Disconnect)
    (s : SessionState R) :
    (engineClose encode d s).writes = s.writes := by
  by_cases hc : s.engineClosed <;> simp [engineClose, hc]

theorem engineClose_accepted {R : Type}
    (encode : Disconnect → Except String String) (d : Disconnect)
    (s : SessionState R) :
    (engineClose encode d s).accepted = s.accepted := by
  by_cases hc : s.engineClosed <;> simp [engineClose, hc]

theorem engineClose_inboundDone {R : Type}
    (encode : Disconnect → Except String String) (d : Disconnect)
    (s : SessionState R) :
    (engineClose encode d s).inboundDone = s.inboundDone := by
  by_cases hc : s.engineClosed <;> simp [engineClose, hc]

theorem engineClose_buf {R : Type}
    (encode : Disconnect → Except String String) (d : Disconnect)
    (s : SessionState R) :
    (engineClose encode d s).transport.buf = s.transport.buf := by
  by_cases hc : s.engineClosed <;> simp [engineClose, hc, close_keeps_buf]

theorem engineClose_chClosed {R : Type}
    (encode : Disconnect → Except String String) (d : Disconnect)
    (s : SessionState R) (h : s.transport.chClosed = true) :
    (engineClose encode d s).transport.chClosed = true := by
  by_cases hc : s.engineClosed
  · simpa [engineClose, hc] using h
  · simpa [engineClose, hc] using close_chClosed_mono encode s.transport d h

/-- Safety invariant of a session run.  It packages: the engine's `Close`
has taken effect exactly as often as the engine is closed; once
`Communicate` has returned, the engine's `Close` has been invoked; while no
write error has been returned, the accepted replies are exactly the written
ones followed by the still-buffered ones, in order; a `nil` return implies
the queue was observed closed and drained; an error return means the last
consumed write outcome was exactly that error and all earlier ones
succeeded; otherwise every consumed write outcome succeeded; and the engine
can only be closed by having been invoked. -/
def SessionInv {R : Type} (s : SessionState R) : Prop :=
  (s.engineEffective = if s.engineClosed then 1 else 0) ∧
  (s.ret.isSome → s.engineCalls ≠ []) ∧
  ((s.ret = none ∨ s.ret = some none) →
    s.accepted = s.writes ++ s.transport.buf) ∧
  (s.ret = some none → s.transport.chClosed = true ∧ s.transport.buf = []) ∧
  (∀ e, s.ret = some (some e) →
    ∃ pre, s.outs = pre ++ [Except.error e] ∧ ∀ w ∈ pre, w = Except.ok ()) ∧
  ((s.ret = none ∨ s.ret = some none) →
    ∀ w ∈ s.outs, w = Except.ok ()) ∧
  (s.engineClosed = false → s.engineCalls = [])

/-- Closing the engine preserves the invariant; only the parts of the
invariant untouched by `engineClose` are needed as hypotheses, so this also
applies to the intermediate states built inside a step. -/
theorem sessionInv_engineClose {R : Type}
    (encode : Disconnect → Except String String) (d : Disconnect)
    (s : SessionState R)
    (h1 : s.engineEffective = if s.engineClosed then 1 else 0)
    (h3 : (s.ret = none ∨ s.ret = some none) →
      s.accepted = s.writes ++ s.transport.buf)
    (h4 : s.ret = some none →
      s.transport.chClosed = true ∧ s.transport.buf = [])
    (h5 : ∀ e, s.ret = some (some e) →
      ∃ pre, s.outs = pre ++ [Except.error e] ∧ ∀ w ∈ pre, w = Except.ok ())
    (h6 : (s.ret = none ∨ s.ret = some none) →
      ∀ w ∈ s.outs, w = Except.ok ()) :
    SessionInv (engineClose encode d s) := by
  refine ⟨?_, ?_, ?_, ?_, ?_, ?_, ?_⟩
  · rw [engineClose_effective encode d s h1, engineClose_closed]
    simp
  · intro _
    simp [engineClose_calls]
  · intro hr
    rw [engineClose_accepted, engineClose_writes, engineClose_buf]
    rw [engineClose_ret] at hr
    exact h3 hr
  · intro hr
    rw [engineClose_ret] at hr
    obtain ⟨hch, hbuf⟩ := h4 hr
    exact ⟨engineClose_chClosed encode d s hch,
      by rw [engineClose_buf]; exact hbuf⟩
  · intro e hr
    rw [engineClose_ret] at hr
    rw [engineClose_outs]
    exact h5 e hr
  · intro hr
    rw [engineClose_ret] at hr
    rw [engineClose_outs]
    exact h6 hr
  · intro hc
    rw [engineClose_closed] at hc
    exact absurd hc (by simp)

/-- One inbound iteration preserves the session invariant. -/
theorem sessionInv_inboundStep {R : Type}
    (encode : Disconnect → Except String String)
    (s : SessionState R) (h : SessionInv s) :
    SessionInv (inboundStep encode s) := by
  by_cases hg : s.panicked || s.inboundDone
  · simpa [inboundStep, hg] using h
  · obtain ⟨h1, h2, h3, h4, h5, h6, h7⟩ := h
    cases hev : s.events with
    | nil => simpa [inboundStep, hg, hev] using ⟨h1, h2, h3, h4, h5, h6, h7⟩
    | cons ev rest =>
      cases ev with
      | eof =>
          have hinv := sessionInv_engineClose encode DisconnectNormal
            { s with events := rest, inboundDone := true } h1 h3 h4 h5 h6
          simpa [inboundStep, hg, hev] using hinv
      | readErr =>
          have hinv := sessionInv_engineClose encode DisconnectNormal
            { s with events := rest, inboundDone := true } h1 h3 h4 h5 h6
          simpa [inboundStep, hg, hev] using hinv
      | cmd hc =>
        obtain ⟨rep, disc⟩ := hc
        cases disc with
        | some d =>
            have hinv := sessionInv_engineClose encode d
              { s with events := rest, inboundDone := true } h1 h3 h4 h5 h6
            simpa [inboundStep, hg, hev] using hinv
        | none =>
          cases rep with
          | none =>
              simpa [inboundStep, hg, hev] using ⟨h1, h2, h3, h4, h5, h6, h7⟩
          | some r =>
            cases hsend : (grpcTransport.Send s.transport r).2 with
            | ok =>
                obtain ⟨hch, hbuf⟩ := send_ok_char s.transport r hsend
                have hinv : SessionInv
                    { s with
                        events := rest,
                        transport := (grpcTransport.Send s.transport r).1,
                        accepted := s.accepted ++ [r] } := by
                  refine ⟨h1, h2, ?_, ?_, h5, h6, h7⟩
                  · intro hretc
                    show s.accepted ++ [r] =
                      s.writes ++ (grpcTransport.Send s.transport r).1.buf
                    rw [hbuf, h3 hretc]
                    simp
                  · intro hretc
                    obtain ⟨hch2, _⟩ := h4 hretc
                    rw [hch2] at hch
                    exact absurd hch (by simp)
                simpa [inboundStep, hg, hev, hsend] using hinv
            | overflow =>
                have hinv := sessionInv_engineClose encode
                  { reason := "error sending message", reconnect := true }
                  { s with events := rest, inboundDone := true } h1 h3 h4 h5 h6
                simpa [inboundStep, hg, hev, hsend] using hinv
            | fault =>
                simpa [inboundStep, hg, hev, hsend] using
                  ⟨h1, h2, h3, h4, h5, h6, h7⟩

/-- One outbound iteration preserves the session invariant. -/
theorem sessionInv_outboundStep {R : Type}
    (encode : Disconnect → Except String String)
    (s : SessionState R) (h : SessionInv s) :
    SessionInv (outboundStep encode s) := by
  by_cases hg : s.panicked || s.ret.isSome
  · simpa [outboundStep, hg] using h
  · have hret : s.ret = none := by
      rcases hx : s.ret with _ | v
      · rfl
      · exact absurd (by simp [hx]) hg
    obtain ⟨h1, h2, h3, h4, h5, h6, h7⟩ := h
    cases hbuf : s.transport.buf with
    | cons r rest =>
      cases hpw : s.pendingWrites with
      | nil =>
          simpa [outboundStep, hg, hbuf, hpw] using
            ⟨h1, h2, h3, h4, h5, h6, h7⟩
      | cons w pw =>
        cases w with
        | ok u =>
            have hinv : SessionInv
                { s with
                    transport := { s.transport with buf := rest },
                    pendingWrites := pw,
                    outs := s.outs ++ [Except.ok u],
                    writes := s.writes ++ [r] } := by
              refine ⟨h1, ?_, ?_, ?_, ?_, ?_, h7⟩
              · intro hx
                exact h2 hx
              · intro _
                show s.accepted = s.writes ++ [r] ++ rest
                have hacc := h3 (Or.inl hret)
                rw [hbuf] at hacc
                rw [hacc]
                simp
              · intro hx
                have hx2 : s.ret = some none := hx
                rw [hret] at hx2
                exact absurd hx2 (by simp)
              · intro e hx
                have hx2 : s.ret = some (some e) := hx
                rw [hret] at hx2
                exact absurd hx2 (by simp)
              · intro _ x hx
                have hx2 : x ∈ s.outs ++ [Except.ok u] := hx
                simp only [List.mem_append, List.mem_singleton] at hx2
                rcases hx2 with hx2 | hx2
                · exact h6 (Or.inl hret) x hx2
                · simp [hx2]
            simpa [outboundStep, hg, hbuf, hpw] using hinv
        | error e =>
            have hinv := sessionInv_engineClose encode DisconnectNormal
              { s with
                  transport := { s.transport with buf := rest },
                  pendingWrites := pw,
                  outs := s.outs ++ [Except.error e],
                  ret := some (some e) }
              h1
              (by intro hx
                  have hx2 : (some (some e) : Option (Option String)) = none ∨
                      (some (some e) : Option (Option String)) = some none := hx
                  rcases hx2 with hx2 | hx2 <;> exact absurd hx2 (by simp))
              (by intro hx
                  have hx2 : (some (some e) : Option (Option String)) =
                      some none := hx
                  exact absurd hx2 (by simp))
              (by intro e2 hx
                  have hx2 : (some (some e) : Option (Option String)) =
                      some (some e2) := hx
                  have he : e2 = e := by simpa using hx2.symm
                  refine ⟨s.outs, ?_, h6 (Or.inl hret)⟩
                  show s.outs ++ [Except.error e] = s.outs ++ [Except.error e2]
                  rw [he])
              (by intro hx
                  have hx2 : (some (some e) : Option (Option String)) = none ∨
                      (some (some e) : Option (Option String)) = some none := hx
                  rcases hx2 with hx2 | hx2 <;> exact absurd hx2 (by simp))
            simpa [outboundStep, hg, hbuf, hpw] using hinv
    | nil =>
      by_cases hch : s.transport.chClosed
      · have hinv := sessionInv_engineClose encode DisconnectNormal
          { s with ret := some none }
          h1
          (fun _ => h3 (Or.inl hret))
          (fun _ => ⟨hch, hbuf⟩)
          (by intro e hx
              have hx2 : (some (none : Option String)) = some (some e) := hx
              exact absurd hx2 (by simp))
          (fun _ => h6 (Or.inl hret))
        simpa [outboundStep, hg, hbuf, hch] using hinv
      · simpa [outboundStep, hg, hbuf, hch] using
          ⟨h1, h2, h3, h4, h5, h6, h7⟩

/-- Any scheduled step preserves the session invariant. -/
theorem sessionInv_step {R : Type}
    (encode : Disconnect → Except String String)
    (s : SessionState R) (op : Step) (h : SessionInv s) :
    SessionInv (sessionStep encode s op) := by
  cases op
  · exact sessionInv_inboundStep encode s h
  · exact sessionInv_outboundStep encode s h

/-- The initial session state satisfies the invariant. -/
theorem sessionInv_init {R : Type} (events : List (ReadEvent R))
    (pendingWrites : List (Except String Unit)) :
    SessionInv (initSession events pendingWrites) := by
  refine ⟨rfl, ?_, ?_, ?_, ?_, ?_, ?_⟩ <;> simp [initSession, newGRPCTransport]

/-- Folding invariant-preserving steps preserves the invariant. -/
theorem foldl_pres {σ α : Type} (f : σ → α → σ) (P : σ → Prop)
    (hf : ∀ s a, P s → P (f s a)) :
    ∀ (l : List α) (s : σ), P s → P (List.foldl f s l)
  | [], _, hs => hs
  | a :: l, s, hs => foldl_pres f P hf l (f s a) (hf s a hs)

/-- Every reachable state of a session run satisfies the invariant. -/
theorem sessionInv_run {R : Type}
    (encode : Disconnect → Except String String)
    (events : List (ReadEvent R))
    (pendingWrites : List (Except String Unit)) (sched : List Step) :
    SessionInv (runSession encode events pendingWrites sched) :=
  foldl_pres (sessionStep encode) SessionInv
    (fun s op h => sessionInv_step encode s op h) sched
    (initSession events pendingWrites) (sessionInv_init events pendingWrites)

/-- C1: for every session run in which the outbound loop exits cleanly
(`Communicate` returns `nil`, i.e. the queue was observed closed and
drained), the replies written to the stream are exactly the replies
successfully enqueued by `Send`, in the same FIFO order — none dropped,
duplicated or reordered. -/
theorem outbound_fifo {R : Type} (encode : Disconnect → Except String String)
    (events : List (ReadEvent R)) (pendingWrites : List (Except String Unit))
    (sched : List Step)
    (hret : (runSession encode events pendingWrites sched).ret = some none) :
    (runSession encode events pendingWrites sched).writes =
      (runSession encode events pendingWrites sched).accepted := by
  obtain ⟨h1, h2, h3, h4, h5, h6, h7⟩ :=
    sessionInv_run encode events pendingWrites sched
  have hacc := h3 (Or.inr hret)
  have hbuf := (h4 hret).2
  rw [hbuf] at hacc
  simpa using hacc.symm

/-- Witness for C1: two replies enqueued before end-of-stream are written in
enqueue order on a clean exit. -/
theorem outbound_fifo_witness :
    (runSession encodeDisconnectJSON
        ([ReadEvent.cmd { rep := some 1, disconnect := none },
          ReadEvent.cmd { rep := some 2, disconnect := none },
          ReadEvent.eof] : List (ReadEvent Nat))
        [Except.ok (), Except.ok ()]
        [Step.inbound, Step.inbound, Step.inbound, Step.outbound,
         Step.outbound, Step.outbound]).ret = some none ∧
    (runSession encodeDisconnectJSON
        ([ReadEvent.cmd { rep := some 1, disconnect := none },
          ReadEvent.cmd { rep := some 2, disconnect := none },
          ReadEvent.eof] : List (ReadEvent Nat))
        [Except.ok (), Except.ok ()]
        [Step.inbound, Step.inbound, Step.inbound, Step.outbound,
         Step.outbound, Step.outbound]).accepted = [1, 2] ∧
    (runSession encodeDisconnectJSON
        ([ReadEvent.cmd { rep := some 1, disconnect := none },
          ReadEvent.cmd { rep := some 2, disconnect := none },
          ReadEvent.eof] : List (ReadEvent Nat))
        [Except.ok (), Except.ok ()]
        [Step.inbound, Step.inbound, Step.inbound, Step.outbound,
         Step.outbound, Step.outbound]).writes =
      (runSession encodeDisconnectJSON
        ([ReadEvent.cmd { rep := some 1, disconnect := none },
          ReadEvent.cmd { rep := some 2, disconnect := none },
          ReadEvent.eof] : List (ReadEvent Nat))
        [Except.ok (), Except.ok ()]
        [Step.inbound, Step.inbound, Step.inbound, Step.outbound,
         Step.outbound, Step.outbound]).accepted :=
  ⟨rfl, rfl, outbound_fifo encodeDisconnectJSON _ _ _ rfl⟩

/-- C5 counterexample: on the plain end-of-stream path the session engine's
`Close` is invoked twice — once by the inbound goroutine on `io.EOF` and
once by the deferred `c.Close(proto.DisconnectNormal)` when `Communicate`
returns — not exactly once as claimed. -/
theorem engine_close_invoked_twice_cex :
    (runSession encodeDisconnectJSON ([ReadEvent.eof] : List (ReadEvent Nat))
        [] [Step.inbound, Step.outbound]).ret = some none ∧
    (runSession encodeDisconnectJSON ([ReadEvent.eof] : List (ReadEvent Nat))
        [] [Step.inbound, Step.outbound]).engineCalls =
      [DisconnectNormal, DisconnectNormal] ∧
    (runSession encodeDisconnectJSON ([ReadEvent.eof] : List (ReadEvent Nat))
        [] [Step.inbound, Step.outbound]).engineCalls.length ≠ 1 :=
  ⟨rfl, rfl, by decide⟩

/-- C5 (amended): on every run in which `Communicate` returns, the session
engine's `Close` has been invoked at least once (the deferred call
guarantees this on every exit path), and — the engine's `Close` being
idempotent — exactly one invocation takes effect; the invocation count can
be two (one from the terminating loop plus the deferred one). -/
theorem engine_close_effective_once {R : Type}
    (encode : Disconnect → Except String String)
    (events : List (ReadEvent R)) (pendingWrites : List (Except String Unit))
    (sched : List Step)
    (hret : (runSession encode events pendingWrites sched).ret.isSome) :
    (runSession encode events pendingWrites sched).engineCalls ≠ [] ∧
    (runSession encode events pendingWrites sched).engineEffective = 1 := by
  obtain ⟨h1, h2, h3, h4, h5, h6, h7⟩ :=
    sessionInv_run encode events pendingWrites sched
  refine ⟨h2 hret, ?_⟩
  have hclosed :
      (runSession encode events pendingWrites sched).engineClosed = true := by
    by_cases hc : (runSession encode events pendingWrites sched).engineClosed
    · exact hc
    · exact absurd (h7 (by simpa using hc)) (h2 hret)
  rw [hclosed] at h1
  simpa using h1

/-- Witness for C5 (amended): a read-error session that runs to completion
has a nonempty invocation list and exactly one effective engine close. -/
theorem engine_close_effective_once_witness :
    (runSession encodeDisconnectJSON
        ([ReadEvent.readErr] : List (ReadEvent Nat))
        [] [Step.inbound, Step.outbound]).ret.isSome ∧
    ((runSession encodeDisconnectJSON
        ([ReadEvent.readErr] : List (ReadEvent Nat))
        [] [Step.inbound, Step.outbound]).engineCalls ≠ [] ∧
     (runSession encodeDisconnectJSON
        ([ReadEvent.readErr] : List (ReadEvent Nat))
        [] [Step.inbound, Step.outbound]).engineEffective = 1) :=
  ⟨rfl, engine_close_effective_once encodeDisconnectJSON _ _ _ rfl⟩

/-- C6: `Communicate` returns the error `e` exactly when a stream write
performed by the outbound loop failed with `e`; and whenever it returns
`nil`, it did so only after the reply queue was observed closed and
drained.  Read errors, queue overflow and engine-issued disconnects are
absorbed into the termination path and never returned. -/
theorem communicate_error_iff_write_failure {R : Type}
    (encode : Disconnect → Except String String)
    (events : List (ReadEvent R)) (pendingWrites : List (Except String Unit))
    (sched : List Step) (e : String) :
    ((runSession encode events pendingWrites sched).ret = some (some e) ↔
      Except.error e ∈ (runSession encode events pendingWrites sched).outs) ∧
    ((runSession encode events pendingWrites sched).ret = some none →
      (runSession encode events pendingWrites sched).transport.chClosed =
        true ∧
      (runSession encode events pendingWrites sched).transport.buf = []) := by
  obtain ⟨h1, h2, h3, h4, h5, h6, h7⟩ :=
    sessionInv_run encode events pendingWrites sched
  constructor
  · constructor
    · intro hr
      obtain ⟨pre, houts, hpre⟩ := h5 e hr
      rw [houts]
      simp
    · intro hmem
      rcases hx : (runSession encode events pendingWrites sched).ret
        with _ | v
      · have := h6 (Or.inl hx) _ hmem
        simp at this
      · cases v with
        | none =>
            have := h6 (Or.inr hx) _ hmem
            simp at this
        | some e2 =>
            obtain ⟨pre, houts, hpre⟩ := h5 e2 hx
            rw [houts] at hmem
            simp only [List.mem_append, List.mem_singleton] at hmem
            rcases hmem with hm | hm
            · have := hpre _ hm
              simp at this
            · have he : e = e2 := by simpa using hm
              rw [he]
  · intro hr
    exact h4 hr

/-- Witness for C6: a failing stream write surfaces as the returned error,
and a clean end-of-stream run ends with the queue closed and drained. -/
theorem communicate_error_iff_write_failure_witness :
    (runSession encodeDisconnectJSON
        ([ReadEvent.cmd { rep := some 1, disconnect := none }] :
          List (ReadEvent Nat))
        [Except.error "boom"] [Step.inbound, Step.outbound]).ret =
      some (some "boom") ∧
    ((runSession encodeDisconnectJSON
        ([ReadEvent.eof] : List (ReadEvent Nat))
        [] [Step.inbound, Step.outbound]).transport.chClosed = true ∧
     (runSession encodeDisconnectJSON
        ([ReadEvent.eof] : List (ReadEvent Nat))
        [] [Step.inbound, Step.outbound]).transport.buf = []) :=
  ⟨(communicate_error_iff_write_failure encodeDisconnectJSON _ _ _
      "boom").1.mpr (List.Mem.head _),
   (communicate_error_iff_write_failure encodeDisconnectJSON
      ([ReadEvent.eof] : List (ReadEvent Nat)) [] [Step.inbound, Step.outbound]
      "x").2 rfl⟩

/-- C7: when the inbound loop's `Send` fails with queue overflow, the loop
closes the session engine with the transport-level disconnect whose reason
is "error sending message" and whose reconnect hint is true, and exits. -/
theorem inbound_overflow_reconnect {R : Type}
    (encode : Disconnect → Except String String) (s : SessionState R)
    (r : R) (rest : List (ReadEvent R))
    (hp : s.panicked = false) (hd : s.inboundDone = false)
    (hev : s.events =
      ReadEvent.cmd { rep := some r, disconnect := none } :: rest)
    (hover : (grpcTransport.Send s.transport r).2 = SendOutcome.overflow) :
    (inboundStep encode s).engineCalls = s.engineCalls ++
      [{ reason := "error sending message", reconnect := true }] ∧
    (inboundStep encode s).inboundDone = true ∧
    ({ reason := "error sending message", reconnect := true } :
      Disconnect).reconnect = true := by
  refine ⟨?_, ?_, rfl⟩
  · simp [inboundStep, hp, hd, hev, hover, engineClose_calls]
  · simp [inboundStep, hp, hd, hev, hover, engineClose_inboundDone]

/-- Witness for C7: a session whose reply queue already holds 64 items
overflows on the next produced reply and records the reconnectable
disconnect. -/
theorem inbound_overflow_reconnect_witness :
    (inboundStep encodeDisconnectJSON
        { events := [ReadEvent.cmd { rep := some 7, disconnect := none }],
          pendingWrites := [],
          transport :=
            { closed := false, trailer := none,
              buf := List.replicate 64 (0 : Nat), chClosed := false },
          inboundDone := false, panicked := false, engineClosed := false,
          engineCalls := [], engineEffective := 0, accepted := [],
          writes := [], outs := [], ret := none }).engineCalls =
      [{ reason := "error sending message", reconnect := true }] ∧
    (inboundStep encodeDisconnectJSON
        { events := [ReadEvent.cmd { rep := some 7, disconnect := none }],
          pendingWrites := [],
          transport :=
            { closed := false, trailer := none,
              buf := List.replicate 64 (0 : Nat), chClosed := false },
          inboundDone := false, panicked := false, engineClosed := false,
          engineCalls := [], engineEffective := 0, accepted := [],
          writes := [], outs := [], ret := none }).inboundDone = true ∧
    ({ reason := "error sending message", reconnect := true } :
      Disconnect).reconnect = true := by
  have h := inbound_overflow_reconnect encodeDisconnectJSON
    { events := [ReadEvent.cmd { rep := some 7, disconnect := none }],
      pendingWrites := [],
      transport :=
        { closed := false, trailer := none,
          buf := List.replicate 64 (0 : Nat), chClosed := false },
      inboundDone := false, panicked := false, engineClosed := false,
      engineCalls := [], engineEffective := 0, accepted := [],
      writes := [], outs := [], ret := none }
    7 [] rfl rfl rfl (by decide)
  exact ⟨h.1, h.2.1, h.2.2⟩

/-- C8: when the inbound loop's read reports end-of-stream or any other
read error, the loop closes the session engine with the standard normal
disconnect and exits, and the read error is not escalated: the value
returned by `Communicate` is untouched by this step. -/
theorem inbound_read_error_normal_disconnect {R : Type}
    (encode : Disconnect → Except String String) (s : SessionState R)
    (rest : List (ReadEvent R))
    (hp : s.panicked = false) (hd : s.inboundDone = false)
    (hev : s.events = ReadEvent.eof :: rest ∨
      s.events = ReadEvent.readErr :: rest) :
    (inboundStep encode s).engineCalls = s.engineCalls ++ [DisconnectNormal] ∧
    (inboundStep encode s).inboundDone = true ∧
    (inboundStep encode s).ret = s.ret := by
  rcases hev with hev | hev <;>
    exact ⟨by simp [inboundStep, hp, hd, hev, engineClose_calls],
      by simp [inboundStep, hp, hd, hev, engineClose_inboundDone],
      by simp [inboundStep, hp, hd, hev, engineClose_ret]⟩

/-- Witness for C8 at a fresh session observing end-of-stream first. -/
theorem inbound_read_error_normal_disconnect_witness :
    (inboundStep encodeDisconnectJSON
        (initSession ([ReadEvent.eof] : List (ReadEvent Nat)) [])).engineCalls =
      [DisconnectNormal] ∧
    (inboundStep encodeDisconnectJSON
        (initSession ([ReadEvent.eof] : List (ReadEvent Nat)) [])).inboundDone =
      true ∧
    (inboundStep encodeDisconnectJSON
        (initSession ([ReadEvent.eof] : List (ReadEvent Nat)) [])).ret =
      none := by
  have h := inbound_read_error_normal_disconnect encodeDisconnectJSON
    (initSession ([ReadEvent.eof] : List (ReadEvent Nat)) []) []
    rfl rfl (Or.inl rfl)
  exact ⟨h.1, h.2.1, h.2.2⟩

end ClientService
